import Mathlib

/-!
Verification of the childcare cost-projection engine of this repository.

The definitions below are a shallow embedding of the Python source:

* `CostData`, `month_to_cost`, `compute_monthly_cost_df`, `cumulative_cost`
  embed `templates/creche.py` (`ChildcareCostEstimator.calculate_costs`) and
  `templates/creche_v1.py` (`month_to_cost`, `compute_monthly_cost_df`,
  `cumulative_cost`); the two files contain the same computation.
* `display_summary_card` embeds the summary computation of
  `ChildcareCostEstimator.display_summary_card` (creche.py lines 225-233),
  identical to the computation inlined in `run` of creche_v1.py.
* `xticks` embeds the tick-position computation of `plot_trend`
  (`utils/plot.py` lines 305-309).

Python numbers are modelled as rationals (`ℚ`), `numpy`'s
`astype(int)` as truncation toward zero, pandas `DataFrame`s as an index
list plus labelled columns, pandas label lookup (`.loc`, a `KeyError` on a
missing label or column) as `Option`-returning lookups.
-/

attribute [local semireducible] Rat.mul

/-- Annual tuition per age band, as in `CostData` of creche.py (the
`tuition_dict` of creche_v1.py holds the same three values under the keys
"Infant", "Toddler", "4-Year-Old"). -/
structure CostData where
  infant : ℚ
  toddler : ℚ
  preschool : ℚ
deriving DecidableEq

/-- Named age bands of the fixed partition used by the estimator. -/
inductive AgeBand where
  | infant
  | toddler
  | preschool
deriving DecidableEq

/-- Tuition of a band in a `CostData` table. -/
def bandTuition (t : CostData) : AgeBand → ℚ
  | .infant => t.infant
  | .toddler => t.toddler
  | .preschool => t.preschool

/-- Age-band resolver: the branch taken by `month_to_cost`
(creche.py lines 163-169 / creche_v1.py lines 198-204):
`if month < 12 ... elif month < 48 ... else ...`. -/
def resolveBand (month : ℤ) : AgeBand :=
  if month < 12 then .infant
  else if month < 48 then .toddler
  else .preschool

/-- The `month_to_cost` closure of creche.py lines 163-169 (and creche_v1.py
lines 198-204): annual tuition of the band a month falls in.  The Python
function performs no bounds check. -/
def month_to_cost (t : CostData) (month : ℤ) : ℚ :=
  if month < 12 then t.infant
  else if month < 48 then t.toddler
  else t.preschool

/-- Age-range configuration (`config.parameters["ages"]`: keys `min-age`,
`max-age`, `age-step`). -/
structure AgeConfig where
  minAge : ℤ
  maxAge : ℤ
  ageStep : ℤ
deriving DecidableEq

/-- Integer `np.arange start stop step` for a positive `step`: the values
`start + i * step` with `i < ⌈(stop - start) / step⌉` (and the empty list
when `stop ≤ start`).  The source only ever calls it with a positive step
(the slider's `age-step`). -/
def arange (start stop step : ℤ) : List ℤ :=
  (List.range ((stop - start + step - 1) / step).toNat).map
    (fun i : ℕ => start + step * (i : ℤ))

/-- Truncation toward zero of a rational divided by 12: this is
`(x / 12).astype(int)` of creche.py line 193 / creche_v1.py line 223
applied to one entry (numpy's int cast truncates toward zero).
Since `q / 12 = q.num / (12 * q.den)` with a positive denominator,
truncation toward zero is exactly Euclidean-free t-division `Int.tdiv`. -/
def divTwelveTrunc (q : ℚ) : ℤ :=
  q.num.tdiv (12 * q.den)

/-- Truncation toward zero of a rational, written the way the spec words it
(floor for non-negative values, ceiling for negative ones); used to state
that `divTwelveTrunc` is truncation of the quotient by 12. -/
def truncTowardZero (q : ℚ) : ℤ :=
  if 0 ≤ q then ⌊q⌋ else ⌈q⌉

/-- A pandas `DataFrame` of integer values: a month index shared by all
columns, and one labelled column per cost bracket. -/
structure CostDF where
  index : List ℤ
  cols : List (String × List ℤ)
deriving DecidableEq

/-- The monthly cost projection of `compute_monthly_cost_df`
(creche_v1.py lines 180-225) and, identically, of
`ChildcareCostEstimator.calculate_costs` (creche.py lines 162-194):
`months = np.arange(min-age, max-age + 1, age-step)`;
`monthly_cost_arr = [month_to_cost(m) for m in months]`;
one column per multiplier bracket `monthly_cost_arr * multiplier`;
then `(df / 12).astype(int)`. -/
def compute_monthly_cost_df (t : CostData) (cfg : AgeConfig)
    (mults : List (String × ℚ)) : CostDF :=
  let months := arange cfg.minAge (cfg.maxAge + 1) cfg.ageStep
  let monthly_cost_arr := months.map (month_to_cost t)
  { index := months
    cols := mults.map
      (fun bm => (bm.1, monthly_cost_arr.map (fun c => divTwelveTrunc (c * bm.2)))) }

/-- Running-sum helper: `cumsumAux acc xs` emits the partial sums of `xs`
continued from `acc`. -/
def cumsumAux (acc : ℤ) : List ℤ → List ℤ
  | [] => []
  | x :: xs => (acc + x) :: cumsumAux (acc + x) xs

/-- Column-wise `cumsum` of pandas: the running sum of a column. -/
def cumsum (xs : List ℤ) : List ℤ :=
  cumsumAux 0 xs

/-- The cumulative cost DataFrame: `monthly_cost_df.cumsum()`
(creche.py line 194 / `cumulative_cost` of creche_v1.py lines 228-240). -/
def cumulative_cost (df : CostDF) : CostDF :=
  { index := df.index
    cols := df.cols.map (fun c => (c.1, cumsum c.2)) }

/-- Scalar label lookup `series.loc[label]` on a column paired with the
DataFrame index; `none` models the `KeyError` on a missing label. -/
def loc1 (index : List ℤ) (col : List ℤ) (label : ℤ) : Option ℤ :=
  (index.zip col).lookup label

/-- Label slice `series.loc[lo : hi]` on a column paired with a sorted
DataFrame index: pandas label slicing keeps every row whose label lies in
`[lo, hi]`, both ends included. -/
def locSlice (index : List ℤ) (col : List ℤ) (lo hi : ℤ) : List ℤ :=
  (((index.zip col).filter (fun p => decide (lo ≤ p.1 ∧ p.1 ≤ hi))).map Prod.snd)

/-- Arithmetic mean of a series, `series.mean()`; the empty mean (which
pandas turns into NaN and which never arises in the claims' scope) is
modelled as `0/0 = 0`. -/
def mean (xs : List ℤ) : ℚ :=
  Rat.divInt xs.sum xs.length

/-- The summary computation of `display_summary_card` (creche.py lines
225-233; inlined identically in `run` of creche_v1.py lines 485-496):
`total_cost = cumulative.loc[end, bracket] - cumulative.loc[start, bracket]`,
`avg_monthly_cost = monthly.loc[start : end + 1, bracket].mean()`,
`duration_months = end - start`.  A missing bracket column or a start/end
label missing from the index is a `KeyError`, modelled by `none`. -/
def display_summary_card (cum monthly : CostDF) (bracket : String)
    (s e : ℤ) : Option (ℤ × ℚ × ℤ) := do
  let ccol ← cum.cols.lookup bracket
  let ce ← loc1 cum.index ccol e
  let cs ← loc1 cum.index ccol s
  let mcol ← monthly.cols.lookup bracket
  pure (ce - cs, mean (locSlice monthly.index mcol s (e + 1)), e - s)

/-- Tick positions of `plot_trend` (utils/plot.py lines 305-309):
`np.concatenate([np.arange(0, 72, 10), [left, right]])`, then `np.unique`
(which sorts and removes duplicates), then a redundant `sort()`. -/
def xticks (left right : ℤ) : List ℤ :=
  List.insertionSort (· ≤ ·) ((arange 0 72 10 ++ [left, right]).dedup)

/-! Helper lemmas. -/

theorem month_to_cost_eq_bandTuition (t : CostData) (m : ℤ) :
    month_to_cost t m = bandTuition t (resolveBand m) := by
  unfold month_to_cost resolveBand
  split <;> [rfl; split <;> rfl]

theorem divTwelveTrunc_eq_trunc (q : ℚ) :
    divTwelveTrunc q = truncTowardZero (q / 12) := by
  have h12 : (q / 12 : ℚ) = (q.num : ℚ) / ((12 * q.den : ℕ) : ℚ) := by
    conv_lhs => rw [← Rat.num_div_den q]
    have hden : ((q.den : ℚ)) ≠ 0 := by positivity
    push_cast
    field_simp
    left
    ring
  rcases le_or_lt 0 q.num with h | h
  · have hq : (0 : ℚ) ≤ q / 12 := by
      have hq0 : (0 : ℚ) ≤ q := Rat.num_nonneg.mp h
      positivity
    rw [truncTowardZero, if_pos hq, h12, Rat.floor_intCast_div_natCast,
      divTwelveTrunc, Int.tdiv_eq_ediv h (by positivity)]
    norm_cast
  · have hq0 : q < 0 := Rat.num_neg.mp h
    have hq : ¬ (0 : ℚ) ≤ q / 12 := by
      simp only [not_le]
      exact div_neg_of_neg_of_pos hq0 (by norm_num)
    have hceil : (⌈q / 12⌉ : ℤ) = -⌊-(q / 12)⌋ := by rw [Int.floor_neg]; ring
    rw [truncTowardZero, if_neg hq, hceil, h12, ← neg_div,
      show (-(q.num : ℚ)) = ((-q.num : ℤ) : ℚ) by push_cast; ring,
      Rat.floor_intCast_div_natCast, divTwelveTrunc]
    have : q.num.tdiv (12 * q.den) = -((-q.num).tdiv (12 * q.den)) := by
      rw [Int.neg_tdiv, neg_neg]
    rw [this, Int.tdiv_eq_ediv (by omega) (by positivity)]
    norm_cast

theorem divTwelveTrunc_nonneg {q : ℚ} (h : 0 ≤ q) : 0 ≤ divTwelveTrunc q :=
  Int.tdiv_nonneg (Rat.num_nonneg.mpr h) (by positivity)

theorem divTwelveTrunc_nonpos {q : ℚ} (h : q ≤ 0) : divTwelveTrunc q ≤ 0 := by
  have hneg : q.num.tdiv (12 * q.den) = -((-q.num).tdiv (12 * q.den)) := by
    rw [Int.neg_tdiv, neg_neg]
  have hnn : 0 ≤ (-q.num).tdiv (12 * q.den) :=
    Int.tdiv_nonneg (by have := Rat.num_nonpos.mpr h; omega) (by positivity)
  rw [divTwelveTrunc, hneg]
  omega

theorem divTwelveTrunc_exact {q : ℚ} {k : ℤ} (h : q = 12 * (k : ℚ)) :
    divTwelveTrunc q = k := by
  have : q = ((12 * k : ℤ) : ℚ) := by push_cast [h]; ring
  subst this
  rw [divTwelveTrunc, Rat.num_intCast, Rat.den_intCast]
  simp [Int.mul_tdiv_cancel_left]

theorem cumsumAux_length (a : ℤ) (xs : List ℤ) :
    (cumsumAux a xs).length = xs.length := by
  induction xs generalizing a with
  | nil => rfl
  | cons x t ih => simp [cumsumAux, ih]

theorem cumsum_length (xs : List ℤ) : (cumsum xs).length = xs.length :=
  cumsumAux_length 0 xs

theorem cumsumAux_getD (xs : List ℤ) :
    ∀ (a : ℤ) (k : ℕ), k < xs.length →
      (cumsumAux a xs).getD k 0 = a + (xs.take (k + 1)).sum := by
  induction xs with
  | nil => intro a k h; simp at h
  | cons x t ih =>
    intro a k h
    cases k with
    | zero =>
      show ((a + x) :: cumsumAux (a + x) t).getD 0 0 = _
      simp
    | succ k =>
      have ht : k < t.length := by simpa using h
      show ((a + x) :: cumsumAux (a + x) t).getD (k + 1) 0 = _
      rw [List.getD_cons_succ, ih (a + x) k ht, List.take_succ_cons,
        List.sum_cons]
      ring

theorem cumsum_getD (xs : List ℤ) (k : ℕ) (h : k < xs.length) :
    (cumsum xs).getD k 0 = (xs.take (k + 1)).sum := by
  simpa using cumsumAux_getD xs 0 k h

theorem lookup_map_snd {α β γ : Type} [BEq α] (l : List (α × β)) (f : β → γ)
    (a : α) :
    (l.map (fun p => (p.1, f p.2))).lookup a = (l.lookup a).map f := by
  induction l with
  | nil => rfl
  | cons h t ih =>
    simp only [List.map_cons, List.lookup]
    cases a == h.1 <;> simp [ih]

theorem loc1_map (index col : List ℤ) (f : ℤ → ℤ) (lab : ℤ) :
    loc1 index (col.map f) lab = (loc1 index col lab).map f := by
  rw [loc1, loc1, List.zip_map_right]
  have hpm : (Prod.map (@id ℤ) f) = (fun p : ℤ × ℤ => (p.1, f p.2)) := by
    funext p
    cases p
    rfl
  rw [hpm, lookup_map_snd]

theorem loc1_getElem (index : List ℤ) :
    ∀ (col : List ℤ) (i : ℕ) (lab : ℤ), index.Nodup → index[i]? = some lab →
      i < col.length → loc1 index col lab = col[i]? := by
  induction index with
  | nil =>
    intro col i lab _ hi _
    simp at hi
  | cons a ix ih =>
    intro col i lab hnd hi hlen
    cases col with
    | nil => simp at hlen
    | cons c cl =>
      cases i with
      | zero =>
        have ha : a = lab := by simpa using hi
        subst ha
        simp [loc1, List.lookup]
      | succ i =>
        have hi' : ix[i]? = some lab := by simpa using hi
        have hmem : lab ∈ ix := List.getElem?_mem hi'
        have hne : (lab == a) = false := by
          have : a ≠ lab := by
            intro h
            exact (List.nodup_cons.mp hnd).1 (h ▸ hmem)
          simpa using Ne.symm this
        have hlen' : i < cl.length := by simpa using hlen
        have hrec := ih cl i lab (List.nodup_cons.mp hnd).2 hi' hlen'
        simpa [loc1, List.lookup, hne] using hrec

theorem cumsumAux_map_mul (c : ℤ) (xs : List ℤ) :
    ∀ a : ℤ, cumsumAux (c * a) (xs.map (fun x => c * x)) =
      (cumsumAux a xs).map (fun x => c * x) := by
  induction xs with
  | nil =>
    intro a
    rfl
  | cons x t ih =>
    intro a
    show (c * a + c * x) :: cumsumAux (c * a + c * x) (t.map (fun x => c * x)) = _
    rw [show c * a + c * x = c * (a + x) by ring, ih (a + x)]
    rfl

theorem cumsum_map_mul (c : ℤ) (xs : List ℤ) :
    cumsum (xs.map (fun x => c * x)) = (cumsum xs).map (fun x => c * x) := by
  have h := cumsumAux_map_mul c xs 0
  rw [mul_zero] at h
  exact h

theorem locSlice_map (index col : List ℤ) (f : ℤ → ℤ) (lo hi : ℤ) :
    locSlice index (col.map f) lo hi = (locSlice index col lo hi).map f := by
  rw [locSlice, locSlice, List.zip_map_right, List.filter_map, List.map_map,
    List.map_map]
  rfl

theorem sum_map_mul (c : ℤ) (xs : List ℤ) :
    (xs.map (fun x => c * x)).sum = c * xs.sum := by
  induction xs with
  | nil => simp
  | cons x t ih =>
    simp only [List.map_cons, List.sum_cons, ih]
    ring

theorem mean_map_mul (c : ℤ) (xs : List ℤ) :
    mean (xs.map (fun x => c * x)) = (c : ℚ) * mean xs := by
  rw [mean, mean, List.length_map, sum_map_mul, Rat.divInt_eq_div,
    Rat.divInt_eq_div]
  push_cast
  rw [mul_div_assoc]

theorem display_summary_card_eq (M : CostDF) (bracket : String)
    (mcol : List ℤ) (i j : ℕ) (s e : ℤ)
    (hcol : M.cols.lookup bracket = some mcol)
    (hlen : mcol.length = M.index.length)
    (hnd : M.index.Nodup)
    (hs : M.index[i]? = some s) (he : M.index[j]? = some e) :
    display_summary_card (cumulative_cost M) M bracket s e =
      some ((mcol.take (j + 1)).sum - (mcol.take (i + 1)).sum,
        mean (locSlice M.index mcol s (e + 1)), e - s) := by
  have hcum : (M.cols.map (fun c => (c.1, cumsum c.2))).lookup bracket
      = some (cumsum mcol) := by
    rw [lookup_map_snd, hcol]
    rfl
  have hjlen : j < M.index.length := by
    have := he
    rw [List.getElem?_eq_some] at this
    exact this.1
  have hilen : i < M.index.length := by
    have := hs
    rw [List.getElem?_eq_some] at this
    exact this.1
  have hj : j < (cumsum mcol).length := by
    rw [cumsum_length, hlen]
    exact hjlen
  have hi : i < (cumsum mcol).length := by
    rw [cumsum_length, hlen]
    exact hilen
  have hget : ∀ (k : ℕ) (hk : k < (cumsum mcol).length),
      (cumsum mcol)[k] = (mcol.take (k + 1)).sum := by
    intro k hk
    have hk' : k < mcol.length := by
      rw [← cumsum_length]
      exact hk
    rw [← cumsum_getD mcol k hk', List.getD_eq_getElem]
  have hloce : loc1 M.index (cumsum mcol) e = some ((mcol.take (j + 1)).sum) := by
    rw [loc1_getElem M.index (cumsum mcol) j e hnd he hj,
      List.getElem?_eq_getElem hj, hget j hj]
  have hlocs : loc1 M.index (cumsum mcol) s = some ((mcol.take (i + 1)).sum) := by
    rw [loc1_getElem M.index (cumsum mcol) i s hnd hs hi,
      List.getElem?_eq_getElem hi, hget i hi]
  show ((M.cols.map (fun c => (c.1, cumsum c.2))).lookup bracket).bind _ = _
  rw [hcum]
  show (loc1 M.index (cumsum mcol) e).bind _ = _
  rw [hloce]
  show (loc1 M.index (cumsum mcol) s).bind _ = _
  rw [hlocs]
  show (M.cols.lookup bracket).bind _ = _
  rw [hcol]
  rfl

/-! Claim theorems. -/

/-- C1: the monthly cost projection yields one column per multiplier bracket,
all sharing the same month index, and the value at month `m` for bracket `b`
equals the annual tuition of `m`'s age band times `b`'s factor, divided by 12
and truncated toward zero to an integer; concretely, for tuition
{Infant 12000, Toddler 9600, Preschool 8400} with multiplier 1.0 over the
range [0,60] with step 1, month 0 costs 1000, month 12 costs 800 and month 48
costs 700. -/
theorem monthly_projection_formula :
    (∀ (t : CostData) (cfg : AgeConfig) (mults : List (String × ℚ)),
      (compute_monthly_cost_df t cfg mults).cols =
        mults.map (fun bm => (bm.1,
          (compute_monthly_cost_df t cfg mults).index.map (fun m =>
            truncTowardZero (bandTuition t (resolveBand m) * bm.2 / 12))))) ∧
    ((compute_monthly_cost_df ⟨12000, 9600, 8400⟩ ⟨0, 60, 1⟩
        [("Average", 1)]).cols.lookup "Average").bind
      (fun col => loc1 (compute_monthly_cost_df ⟨12000, 9600, 8400⟩ ⟨0, 60, 1⟩
        [("Average", 1)]).index col 0) = some 1000 ∧
    ((compute_monthly_cost_df ⟨12000, 9600, 8400⟩ ⟨0, 60, 1⟩
        [("Average", 1)]).cols.lookup "Average").bind
      (fun col => loc1 (compute_monthly_cost_df ⟨12000, 9600, 8400⟩ ⟨0, 60, 1⟩
        [("Average", 1)]).index col 12) = some 800 ∧
    ((compute_monthly_cost_df ⟨12000, 9600, 8400⟩ ⟨0, 60, 1⟩
        [("Average", 1)]).cols.lookup "Average").bind
      (fun col => loc1 (compute_monthly_cost_df ⟨12000, 9600, 8400⟩ ⟨0, 60, 1⟩
        [("Average", 1)]).index col 48) = some 700 := by
  refine ⟨?_, rfl, rfl, rfl⟩
  intro t cfg mults
  simp only [compute_monthly_cost_df]
  refine List.map_congr_left (fun bm _ => ?_)
  congr 1
  rw [List.map_map]
  refine List.map_congr_left (fun m _ => ?_)
  simp only [Function.comp]
  rw [divTwelveTrunc_eq_trunc, month_to_cost_eq_bandTuition]

/-- C2: the age-band resolver realises the half-open partition
{[0,12), [12,48), [48,∞)}: months 0-11 resolve to Infant, 12-47 to Toddler,
48 and above to Preschool, and `month_to_cost` returns the tuition of the
resolved band; the boundary months 11, 12, 47, 48 resolve to Infant, Toddler,
Toddler, Preschool. -/
theorem resolveBand_partition :
    (∀ m : ℤ, 0 ≤ m →
      ((m < 12 → resolveBand m = AgeBand.infant) ∧
        (12 ≤ m → m < 48 → resolveBand m = AgeBand.toddler) ∧
        (48 ≤ m → resolveBand m = AgeBand.preschool)) ∧
      ∀ t : CostData, month_to_cost t m = bandTuition t (resolveBand m)) ∧
    resolveBand 11 = AgeBand.infant ∧ resolveBand 12 = AgeBand.toddler ∧
    resolveBand 47 = AgeBand.toddler ∧ resolveBand 48 = AgeBand.preschool := by
  refine ⟨fun m _ => ⟨⟨fun h => ?_, fun h1 h2 => ?_, fun h => ?_⟩,
    fun t => month_to_cost_eq_bandTuition t m⟩, rfl, rfl, rfl, rfl⟩
  · rw [resolveBand, if_pos h]
  · rw [resolveBand, if_neg (by omega), if_pos h2]
  · rw [resolveBand, if_neg (by omega), if_neg (by omega)]

theorem resolveBand_partition_witness :
    ((0 : ℤ) ≤ 30 ∧ (12 : ℤ) ≤ 30 ∧ (30 : ℤ) < 48) ∧
      resolveBand 30 = AgeBand.toddler :=
  ⟨⟨by decide, by decide, by decide⟩,
    (resolveBand_partition.1 30 (by decide)).1.2.1 (by decide) (by decide)⟩

/-- C3: the cumulative aggregator applies the running sum to every bracket
column independently over the shared index, and the running sum is the prefix
sum: its value at position k is the sum of the first k+1 monthly values;
equivalently its value at position k+1 is its value at position k plus the
monthly value there, with the value at position 0 equal to the first monthly
value. -/
theorem cumulative_prefix_sum :
    (∀ df : CostDF, (cumulative_cost df).index = df.index ∧
      (cumulative_cost df).cols = df.cols.map (fun c => (c.1, cumsum c.2))) ∧
    (∀ (xs : List ℤ) (k : ℕ), k < xs.length →
      (cumsum xs).getD k 0 = (xs.take (k + 1)).sum) ∧
    (∀ (xs : List ℤ) (k : ℕ), k + 1 < xs.length →
      (cumsum xs).getD (k + 1) 0 = (cumsum xs).getD k 0 + xs.getD (k + 1) 0) ∧
    (∀ xs : List ℤ, 0 < xs.length → (cumsum xs).getD 0 0 = xs.getD 0 0) := by
  refine ⟨fun df => ⟨rfl, rfl⟩, cumsum_getD, fun xs k h => ?_, fun xs h => ?_⟩
  · have hk : k < xs.length := by omega
    rw [cumsum_getD xs (k + 1) h, cumsum_getD xs k hk,
      List.sum_take_succ xs (k + 1) h, List.getD_eq_getElem xs 0 h]
  · rw [cumsum_getD xs 0 h, List.sum_take_succ xs 0 h,
      List.getD_eq_getElem xs 0 h]
    simp

theorem cumulative_prefix_sum_witness :
    1 < ([4, 7, 9] : List ℤ).length ∧
      (cumsum [4, 7, 9]).getD 1 0 = (([4, 7, 9] : List ℤ).take 2).sum :=
  ⟨by decide, cumulative_prefix_sum.2.1 [4, 7, 9] 1 (by decide)⟩

/-- C4 counterexample: over tuition {12000, 9600, 8400}, multiplier 1.0,
range [0,60] step 1, bracket "Average", interval (6, 11), the summarizer's
average is 6800/7 (the mean over month labels 6 through 12, because
`monthly.loc[start : end + 1]` slices labels inclusively), not the mean 1000
over months 6 through 11 that the claim asserts. -/
theorem summary_card_avg_counterexample :
    display_summary_card
        (cumulative_cost (compute_monthly_cost_df ⟨12000, 9600, 8400⟩
          ⟨0, 60, 1⟩ [("Average", 1)]))
        (compute_monthly_cost_df ⟨12000, 9600, 8400⟩ ⟨0, 60, 1⟩
          [("Average", 1)])
        "Average" 6 11 = some (5000, Rat.divInt 6800 7, 5) ∧
    mean (locSlice
      (compute_monthly_cost_df ⟨12000, 9600, 8400⟩ ⟨0, 60, 1⟩
        [("Average", 1)]).index
      (((compute_monthly_cost_df ⟨12000, 9600, 8400⟩ ⟨0, 60, 1⟩
        [("Average", 1)]).cols.lookup "Average").getD [])
      6 11) = 1000 ∧
    Rat.divInt 6800 7 ≠ (1000 : ℚ) :=
  ⟨rfl, by decide, by decide⟩

/-- C4 (amended): for a monthly DataFrame with a bracket column and start/end
labels at index positions i and j, the summarizer returns
`total_cost = cumulative[end] - cumulative[start]` (the prefix sums of the
monthly column up to j and i), `duration_months = end - start`, and
`avg_monthly_cost` equal to the mean of the monthly values at labels in
[start, end + 1] — one month more than the claim's [start, end], because
pandas label slicing includes the upper bound `end + 1`. -/
theorem summary_card_values (M : CostDF) (bracket : String) (mcol : List ℤ)
    (i j : ℕ) (s e : ℤ)
    (hcol : M.cols.lookup bracket = some mcol)
    (hlen : mcol.length = M.index.length)
    (hnd : M.index.Nodup)
    (hs : M.index[i]? = some s) (he : M.index[j]? = some e) :
    display_summary_card (cumulative_cost M) M bracket s e =
      some ((mcol.take (j + 1)).sum - (mcol.take (i + 1)).sum,
        mean (locSlice M.index mcol s (e + 1)), e - s) :=
  display_summary_card_eq M bracket mcol i j s e hcol hlen hnd hs he

theorem summary_card_values_witness :
    (compute_monthly_cost_df ⟨12000, 9600, 8400⟩ ⟨0, 60, 1⟩
        [("Average", 1)]).cols.lookup "Average" =
      some (((compute_monthly_cost_df ⟨12000, 9600, 8400⟩ ⟨0, 60, 1⟩
        [("Average", 1)]).cols.lookup "Average").getD []) ∧
    display_summary_card
        (cumulative_cost (compute_monthly_cost_df ⟨12000, 9600, 8400⟩
          ⟨0, 60, 1⟩ [("Average", 1)]))
        (compute_monthly_cost_df ⟨12000, 9600, 8400⟩ ⟨0, 60, 1⟩
          [("Average", 1)])
        "Average" 6 11 =
      some (((((compute_monthly_cost_df ⟨12000, 9600, 8400⟩ ⟨0, 60, 1⟩
            [("Average", 1)]).cols.lookup "Average").getD []).take 12).sum -
          ((((compute_monthly_cost_df ⟨12000, 9600, 8400⟩ ⟨0, 60, 1⟩
            [("Average", 1)]).cols.lookup "Average").getD []).take 7).sum,
        mean (locSlice
          (compute_monthly_cost_df ⟨12000, 9600, 8400⟩ ⟨0, 60, 1⟩
            [("Average", 1)]).index
          (((compute_monthly_cost_df ⟨12000, 9600, 8400⟩ ⟨0, 60, 1⟩
            [("Average", 1)]).cols.lookup "Average").getD [])
          6 12),
        11 - 6) :=
  ⟨rfl, summary_card_values
    (compute_monthly_cost_df ⟨12000, 9600, 8400⟩ ⟨0, 60, 1⟩ [("Average", 1)])
    "Average"
    (((compute_monthly_cost_df ⟨12000, 9600, 8400⟩ ⟨0, 60, 1⟩
      [("Average", 1)]).cols.lookup "Average").getD [])
    6 11 6 11 rfl rfl (by decide) rfl rfl⟩

/-- C5 counterexample: for the range [0,10] with step 3 the month index is
[0, 3, 6, 9]; the final point is 9, and month 10 is not included, contrary to
the claim that both endpoints are always included. -/
theorem arange_includes_last_counterexample :
    arange 0 (10 + 1) 3 = [0, 3, 6, 9] ∧
    (10 : ℤ) ∉ arange 0 (10 + 1) 3 ∧
    (compute_monthly_cost_df ⟨12000, 9600, 8400⟩ ⟨0, 10, 3⟩
      [("Average", 1)]).index = [0, 3, 6, 9] :=
  ⟨rfl, by decide, rfl⟩

/-- C5 (amended): for min-age ≤ max-age and positive step, the month index
always contains min-age, every point lies in [min-age, max-age], and its last
point is min-age + step · ⌊(max-age − min-age) / step⌋; max-age itself is
included exactly when step divides (max-age − min-age) — for range [0,10]
with step 3 the final point is 9, not 10. -/
theorem arange_endpoints (minA maxA step : ℤ) (hstep : 0 < step)
    (hle : minA ≤ maxA) :
    minA ∈ arange minA (maxA + 1) step ∧
    (∀ m ∈ arange minA (maxA + 1) step, minA ≤ m ∧ m ≤ maxA) ∧
    (arange minA (maxA + 1) step).getLast? =
      some (minA + step * ((maxA - minA) / step)) ∧
    (step ∣ (maxA - minA) → maxA ∈ arange minA (maxA + 1) step) := by
  have hq0 : 0 ≤ (maxA - minA) / step := Int.ediv_nonneg (by omega) (by omega)
  have hlen : (maxA + 1 - minA + step - 1) / step
      = (maxA - minA) / step + 1 := by
    have h1 : maxA + 1 - minA + step - 1 = (maxA - minA) + 1 * step := by ring
    rw [h1, Int.add_mul_ediv_right _ _ (show step ≠ 0 by omega)]
  have htoNat : ((maxA + 1 - minA + step - 1) / step).toNat
      = ((maxA - minA) / step).toNat + 1 := by
    rw [hlen]
    omega
  have hcast : (((maxA - minA) / step).toNat : ℤ) = (maxA - minA) / step :=
    Int.toNat_of_nonneg hq0
  have hub : step * ((maxA - minA) / step) ≤ maxA - minA := by
    have h := Int.ediv_mul_le (maxA - minA) (show step ≠ 0 by omega)
    calc step * ((maxA - minA) / step)
        = (maxA - minA) / step * step := by ring
      _ ≤ maxA - minA := h
  refine ⟨?_, ?_, ?_, ?_⟩
  · rw [arange, htoNat]
    exact List.mem_map.mpr ⟨0, List.mem_range.mpr (by omega), by simp⟩
  · intro m hm
    rw [arange] at hm
    obtain ⟨n, hn, hfn⟩ := List.mem_map.mp hm
    rw [List.mem_range, htoNat] at hn
    have hnq : (n : ℤ) ≤ (maxA - minA) / step := by omega
    have hsn : 0 ≤ step * (n : ℤ) := by positivity
    have hsq : step * (n : ℤ) ≤ step * ((maxA - minA) / step) :=
      mul_le_mul_of_nonneg_left hnq (by omega)
    omega
  · rw [arange, htoNat, List.range_succ, List.map_append]
    rw [show (List.map (fun i : ℕ => minA + step * (i : ℤ))
      [((maxA - minA) / step).toNat])
      = [minA + step * (((maxA - minA) / step).toNat : ℤ)] from rfl]
    rw [List.getLast?_concat, hcast]
  · intro hdvd
    have hmul : step * ((maxA - minA) / step) = maxA - minA :=
      Int.mul_ediv_cancel' hdvd
    rw [arange, htoNat]
    refine List.mem_map.mpr ⟨(((maxA - minA) / step)).toNat,
      List.mem_range.mpr (by omega), ?_⟩
    rw [hcast]
    omega

theorem arange_endpoints_witness :
    ((0 : ℤ) < 3 ∧ (0 : ℤ) ≤ 10) ∧
    ((0 : ℤ) ∈ arange 0 (10 + 1) 3 ∧
      (∀ m ∈ arange 0 (10 + 1) 3, (0 : ℤ) ≤ m ∧ m ≤ 10) ∧
      (arange 0 (10 + 1) 3).getLast? = some (0 + 3 * (((10 : ℤ) - 0) / 3)) ∧
      ((3 : ℤ) ∣ (10 - 0) → (10 : ℤ) ∈ arange 0 (10 + 1) 3)) :=
  ⟨⟨by decide, by decide⟩, arange_endpoints 0 10 3 (by decide) (by decide)⟩

/-- C6 counterexample: with min-age 5 > max-age 3 the projection returns a
series (with an empty index and an empty column) instead of raising, and with
the non-positive multiplier −1 it returns a series whose month-0 value is
−1000; no configuration error exists in the code. -/
theorem projection_no_error_counterexample :
    compute_monthly_cost_df ⟨12000, 9600, 8400⟩ ⟨5, 3, 1⟩ [("Average", 1)] =
      ⟨[], [("Average", [])]⟩ ∧
    ((compute_monthly_cost_df ⟨12000, 9600, 8400⟩ ⟨0, 60, 1⟩
        [("Low", -1)]).cols.lookup "Low").bind
      (fun col => loc1 (compute_monthly_cost_df ⟨12000, 9600, 8400⟩ ⟨0, 60, 1⟩
        [("Low", -1)]).index col 0) = some (-1000) :=
  ⟨rfl, rfl⟩

/-- C6 (amended): the projection performs no input validation: when
min-age > max-age (with a positive step) it returns an empty series — an
empty index and one empty column per bracket — rather than raising, and
non-positive multipliers are accepted as-is, producing non-positive monthly
values (for non-negative tuition). -/
theorem projection_no_validation (t : CostData) (cfg : AgeConfig)
    (mults : List (String × ℚ)) :
    (cfg.maxAge < cfg.minAge → 0 < cfg.ageStep →
      (compute_monthly_cost_df t cfg mults).index = [] ∧
      (compute_monthly_cost_df t cfg mults).cols =
        mults.map (fun bm => (bm.1, ([] : List ℤ)))) ∧
    ((∀ bm ∈ mults, bm.2 ≤ 0) → 0 ≤ t.infant → 0 ≤ t.toddler →
      0 ≤ t.preschool →
      ∀ col ∈ (compute_monthly_cost_df t cfg mults).cols,
        ∀ v ∈ col.2, v ≤ 0) := by
  constructor
  · intro hlt hstep
    have ha : arange cfg.minAge (cfg.maxAge + 1) cfg.ageStep = [] := by
      rw [arange]
      have hdiv : (cfg.maxAge + 1 - cfg.minAge + cfg.ageStep - 1) /
          cfg.ageStep < 1 := by
        rw [Int.ediv_lt_iff_lt_mul hstep]
        omega
      have h0 : ((cfg.maxAge + 1 - cfg.minAge + cfg.ageStep - 1) /
          cfg.ageStep).toNat = 0 := by omega
      rw [h0]
      rfl
    refine ⟨ha, ?_⟩
    show mults.map _ = _
    refine List.map_congr_left (fun bm _ => ?_)
    rw [ha]
    rfl
  · intro hmult h1 h2 h3 col hcol v hv
    simp only [compute_monthly_cost_df] at hcol
    obtain ⟨bm, hbm, rfl⟩ := List.mem_map.mp hcol
    obtain ⟨c, hc, rfl⟩ := List.mem_map.mp hv
    obtain ⟨m, hm, rfl⟩ := List.mem_map.mp hc
    have hmc : 0 ≤ month_to_cost t m := by
      rw [month_to_cost]
      split
      · exact h1
      · split
        · exact h2
        · exact h3
    exact divTwelveTrunc_nonpos
      (mul_nonpos_iff.mpr (Or.inl ⟨hmc, hmult bm hbm⟩))

theorem projection_no_validation_witness :
    ((3 : ℤ) < 5 ∧ (0 : ℤ) < 1) ∧
    ((compute_monthly_cost_df ⟨12000, 9600, 8400⟩ ⟨5, 3, 1⟩
        [("Average", 1)]).index = [] ∧
      (compute_monthly_cost_df ⟨12000, 9600, 8400⟩ ⟨5, 3, 1⟩
        [("Average", 1)]).cols =
        [("Average", (1 : ℚ))].map (fun bm => (bm.1, ([] : List ℤ)))) :=
  ⟨⟨by decide, by decide⟩,
    (projection_no_validation ⟨12000, 9600, 8400⟩ ⟨5, 3, 1⟩
      [("Average", 1)]).1 (by decide) (by decide)⟩

/-- C7 counterexample: the resolver is total and performs no bounds check: at
month −5 (negative, hence outside any configured range) it returns the Infant
band and `month_to_cost` returns the infant tuition — no domain error is
raised; likewise month 999 is priced as Preschool. -/
theorem resolver_no_domain_error_counterexample :
    resolveBand (-5) = AgeBand.infant ∧
    month_to_cost ⟨12000, 9600, 8400⟩ (-5) = 12000 ∧
    month_to_cost ⟨12000, 9600, 8400⟩ 999 = 8400 :=
  ⟨rfl, rfl, rfl⟩

/-- C7 (amended): `month_to_cost` and the band resolver are total and never
raise: every negative month is priced as Infant, and every month at or above
48 — in particular any month beyond the configured range — is priced as
Preschool. -/
theorem month_to_cost_total (t : CostData) (m : ℤ) :
    (m < 0 → month_to_cost t m = t.infant ∧ resolveBand m = AgeBand.infant) ∧
    (48 ≤ m → month_to_cost t m = t.preschool ∧
      resolveBand m = AgeBand.preschool) := by
  constructor
  · intro h
    exact ⟨by rw [month_to_cost, if_pos (by omega)],
      by rw [resolveBand, if_pos (by omega)]⟩
  · intro h
    exact ⟨by rw [month_to_cost, if_neg (by omega), if_neg (by omega)],
      by rw [resolveBand, if_neg (by omega), if_neg (by omega)]⟩

theorem month_to_cost_total_witness :
    (-7 : ℤ) < 0 ∧ (month_to_cost ⟨12000, 9600, 8400⟩ (-7) = 12000 ∧
      resolveBand (-7) = AgeBand.infant) :=
  ⟨by decide, (month_to_cost_total ⟨12000, 9600, 8400⟩ (-7)).1 (by decide)⟩

theorem month_to_cost_scale (t : CostData) (c : ℤ) (m : ℤ) :
    month_to_cost ⟨(c : ℚ) * t.infant, (c : ℚ) * t.toddler,
      (c : ℚ) * t.preschool⟩ m = (c : ℚ) * month_to_cost t m := by
  unfold month_to_cost
  split <;> [rfl; split <;> rfl]

theorem compute_monthly_cost_df_scale (t : CostData) (c : ℤ) (cfg : AgeConfig)
    (mults : List (String × ℚ))
    (hexact : ∀ bm ∈ mults, (∃ k : ℤ, t.infant * bm.2 = 12 * (k : ℚ)) ∧
      (∃ k : ℤ, t.toddler * bm.2 = 12 * (k : ℚ)) ∧
      (∃ k : ℤ, t.preschool * bm.2 = 12 * (k : ℚ))) :
    compute_monthly_cost_df ⟨(c : ℚ) * t.infant, (c : ℚ) * t.toddler,
        (c : ℚ) * t.preschool⟩ cfg mults =
      { index := (compute_monthly_cost_df t cfg mults).index
        cols := (compute_monthly_cost_df t cfg mults).cols.map
          (fun col => (col.1, col.2.map (fun x => c * x))) } := by
  simp only [compute_monthly_cost_df, List.map_map]
  congr 1
  refine List.map_congr_left (fun bm hbm => ?_)
  simp only [Function.comp]
  congr 1
  rw [List.map_map]
  refine List.map_congr_left (fun m _ => ?_)
  simp only [Function.comp]
  rw [month_to_cost_scale]
  have hk : ∃ k : ℤ, month_to_cost t m * bm.2 = 12 * (k : ℚ) := by
    obtain ⟨h1, h2, h3⟩ := hexact bm hbm
    rw [month_to_cost]
    split
    · exact h1
    · split
      · exact h2
      · exact h3
  obtain ⟨k, hk⟩ := hk
  have h1 : divTwelveTrunc (month_to_cost t m * bm.2) = k :=
    divTwelveTrunc_exact hk
  have h2 : divTwelveTrunc ((c : ℚ) * month_to_cost t m * bm.2) = c * k := by
    apply divTwelveTrunc_exact
    rw [mul_assoc, hk]
    push_cast
    ring
  rw [h1, h2]

/-- C8 counterexample: for the tuition table {12006, 9600, 8400} with
multiplier 1 over [0,60] step 1, bracket "Average", interval (0,1), the
summary's total cost is 1000, but for the table scaled by the factor c = 2
it is 2001, not 2 × 1000: truncation toward zero (12006/12 → 1000 but
24012/12 → 2001) breaks exact scaling. -/
theorem summary_scaling_counterexample :
    display_summary_card
        (cumulative_cost (compute_monthly_cost_df ⟨12006, 9600, 8400⟩
          ⟨0, 60, 1⟩ [("Average", 1)]))
        (compute_monthly_cost_df ⟨12006, 9600, 8400⟩ ⟨0, 60, 1⟩
          [("Average", 1)])
        "Average" 0 1 = some (1000, 1000, 1) ∧
    display_summary_card
        (cumulative_cost (compute_monthly_cost_df ⟨2 * 12006, 2 * 9600,
          2 * 8400⟩ ⟨0, 60, 1⟩ [("Average", 1)]))
        (compute_monthly_cost_df ⟨2 * 12006, 2 * 9600, 2 * 8400⟩ ⟨0, 60, 1⟩
          [("Average", 1)])
        "Average" 0 1 = some (2001, 2001, 1) ∧
    (2001 : ℤ) ≠ 2 * 1000 :=
  ⟨rfl, rfl, by decide⟩

/-- C8 (amended): scaling the tuition table by a positive integer factor c
scales the summary's total cost and average monthly cost exactly by c and
leaves the duration unchanged, provided each bracket's multiplier-scaled
annual tuitions are exactly divisible by 12 (so that the truncation toward
zero in the projection is exact); without that proviso, truncation breaks
exact proportionality. -/
theorem summary_scaling_exact (t : CostData) (c : ℤ) (cfg : AgeConfig)
    (mults : List (String × ℚ)) (bracket : String) (mcol : List ℤ)
    (i j : ℕ) (s e : ℤ)
    (hc : 0 < c)
    (hexact : ∀ bm ∈ mults, (∃ k : ℤ, t.infant * bm.2 = 12 * (k : ℚ)) ∧
      (∃ k : ℤ, t.toddler * bm.2 = 12 * (k : ℚ)) ∧
      (∃ k : ℤ, t.preschool * bm.2 = 12 * (k : ℚ)))
    (hcol : (compute_monthly_cost_df t cfg mults).cols.lookup bracket =
      some mcol)
    (hlen : mcol.length = (compute_monthly_cost_df t cfg mults).index.length)
    (hnd : (compute_monthly_cost_df t cfg mults).index.Nodup)
    (hs : (compute_monthly_cost_df t cfg mults).index[i]? = some s)
    (he : (compute_monthly_cost_df t cfg mults).index[j]? = some e) :
    display_summary_card
        (cumulative_cost (compute_monthly_cost_df t cfg mults))
        (compute_monthly_cost_df t cfg mults) bracket s e =
      some ((mcol.take (j + 1)).sum - (mcol.take (i + 1)).sum,
        mean (locSlice (compute_monthly_cost_df t cfg mults).index mcol
          s (e + 1)), e - s) ∧
    display_summary_card
        (cumulative_cost (compute_monthly_cost_df ⟨(c : ℚ) * t.infant,
          (c : ℚ) * t.toddler, (c : ℚ) * t.preschool⟩ cfg mults))
        (compute_monthly_cost_df ⟨(c : ℚ) * t.infant, (c : ℚ) * t.toddler,
          (c : ℚ) * t.preschool⟩ cfg mults) bracket s e =
      some (c * ((mcol.take (j + 1)).sum - (mcol.take (i + 1)).sum),
        (c : ℚ) * mean (locSlice (compute_monthly_cost_df t cfg mults).index
          mcol s (e + 1)), e - s) := by
  have hfirst := display_summary_card_eq (compute_monthly_cost_df t cfg mults)
    bracket mcol i j s e hcol hlen hnd hs he
  refine ⟨hfirst, ?_⟩
  rw [compute_monthly_cost_df_scale t c cfg mults hexact]
  have hcol2 : ((compute_monthly_cost_df t cfg mults).cols.map
      (fun col => (col.1, col.2.map (fun x => c * x)))).lookup bracket =
      some (mcol.map (fun x => c * x)) := by
    rw [lookup_map_snd, hcol]
    rfl
  have hsecond := display_summary_card_eq
    ⟨(compute_monthly_cost_df t cfg mults).index,
      (compute_monthly_cost_df t cfg mults).cols.map
        (fun col => (col.1, col.2.map (fun x => c * x)))⟩
    bracket (mcol.map (fun x => c * x)) i j s e hcol2
    (by rw [List.length_map]; exact hlen) hnd hs he
  rw [hsecond, ← List.map_take, ← List.map_take, sum_map_mul, sum_map_mul,
    locSlice_map, mean_map_mul, mul_sub]

theorem summary_scaling_exact_witness :
    display_summary_card
        (cumulative_cost (compute_monthly_cost_df ⟨12000, 9600, 8400⟩
          ⟨0, 60, 1⟩ [("Average", 1)]))
        (compute_monthly_cost_df ⟨12000, 9600, 8400⟩ ⟨0, 60, 1⟩
          [("Average", 1)]) "Average" 6 11 =
      some (((((compute_monthly_cost_df ⟨12000, 9600, 8400⟩ ⟨0, 60, 1⟩
            [("Average", 1)]).cols.lookup "Average").getD []).take 12).sum -
          ((((compute_monthly_cost_df ⟨12000, 9600, 8400⟩ ⟨0, 60, 1⟩
            [("Average", 1)]).cols.lookup "Average").getD []).take 7).sum,
        mean (locSlice (compute_monthly_cost_df ⟨12000, 9600, 8400⟩
            ⟨0, 60, 1⟩ [("Average", 1)]).index
          (((compute_monthly_cost_df ⟨12000, 9600, 8400⟩ ⟨0, 60, 1⟩
            [("Average", 1)]).cols.lookup "Average").getD []) 6 12),
        11 - 6) ∧
    display_summary_card
        (cumulative_cost (compute_monthly_cost_df
          ⟨((2 : ℤ) : ℚ) * 12000, ((2 : ℤ) : ℚ) * 9600,
            ((2 : ℤ) : ℚ) * 8400⟩ ⟨0, 60, 1⟩ [("Average", 1)]))
        (compute_monthly_cost_df ⟨((2 : ℤ) : ℚ) * 12000,
          ((2 : ℤ) : ℚ) * 9600, ((2 : ℤ) : ℚ) * 8400⟩ ⟨0, 60, 1⟩
          [("Average", 1)]) "Average" 6 11 =
      some (2 * (((((compute_monthly_cost_df ⟨12000, 9600, 8400⟩ ⟨0, 60, 1⟩
            [("Average", 1)]).cols.lookup "Average").getD []).take 12).sum -
          ((((compute_monthly_cost_df ⟨12000, 9600, 8400⟩ ⟨0, 60, 1⟩
            [("Average", 1)]).cols.lookup "Average").getD []).take 7).sum),
        ((2 : ℤ) : ℚ) * mean (locSlice (compute_monthly_cost_df
            ⟨12000, 9600, 8400⟩ ⟨0, 60, 1⟩ [("Average", 1)]).index
          (((compute_monthly_cost_df ⟨12000, 9600, 8400⟩ ⟨0, 60, 1⟩
            [("Average", 1)]).cols.lookup "Average").getD []) 6 12),
        11 - 6) :=
  summary_scaling_exact ⟨12000, 9600, 8400⟩ 2 ⟨0, 60, 1⟩ [("Average", 1)]
    "Average"
    (((compute_monthly_cost_df ⟨12000, 9600, 8400⟩ ⟨0, 60, 1⟩
      [("Average", 1)]).cols.lookup "Average").getD [])
    6 11 6 11 (by decide)
    (by
      intro bm hbm
      rw [List.mem_singleton] at hbm
      subst hbm
      exact ⟨⟨1000, by norm_num⟩, ⟨800, by norm_num⟩, ⟨700, by norm_num⟩⟩)
    rfl rfl (by decide) rfl rfl

/-- C9: for every highlighted interval [left, right] with left ≤ right inside
the plotted range, the tick-position list is strictly increasing (hence
sorted with no duplicate positions) and contains both left and right. -/
theorem xticks_sorted_nodup_mem (left right : ℤ) (h1 : left ≤ right)
    (h2 : 0 ≤ left) (h3 : right ≤ 71) :
    List.Sorted (· < ·) (xticks left right) ∧ (xticks left right).Nodup ∧
    left ∈ xticks left right ∧ right ∈ xticks left right := by
  have hperm : (xticks left right).Perm
      ((arange 0 72 10 ++ [left, right]).dedup) :=
    List.perm_insertionSort _ _
  have hnd : (xticks left right).Nodup :=
    hperm.nodup_iff.mpr (List.nodup_dedup _)
  have hsle : List.Sorted (· ≤ ·) (xticks left right) :=
    List.sorted_insertionSort _ _
  have hslt : List.Sorted (· < ·) (xticks left right) :=
    (List.Pairwise.and hsle hnd).imp (fun hab => lt_of_le_of_ne hab.1 hab.2)
  refine ⟨hslt, hnd, ?_, ?_⟩
  · exact hperm.mem_iff.mpr (List.mem_dedup.mpr (by simp))
  · exact hperm.mem_iff.mpr (List.mem_dedup.mpr (by simp))

theorem xticks_witness :
    ((6 : ℤ) ≤ 54 ∧ (0 : ℤ) ≤ 6 ∧ (54 : ℤ) ≤ 71) ∧
    (List.Sorted (· < ·) (xticks 6 54) ∧ (xticks 6 54).Nodup ∧
      (6 : ℤ) ∈ xticks 6 54 ∧ (54 : ℤ) ∈ xticks 6 54) :=
  ⟨⟨by decide, by decide, by decide⟩,
    xticks_sorted_nodup_mem 6 54 (by decide) (by decide) (by decide)⟩

/-- C10: with non-negative tuition values and non-negative multipliers, every
monthly cost value is a non-negative integer, and consequently every
cumulative column is monotone non-decreasing from each index position to the
next. -/
theorem projection_nonneg_monotone (t : CostData) (cfg : AgeConfig)
    (mults : List (String × ℚ)) (h1 : 0 ≤ t.infant) (h2 : 0 ≤ t.toddler)
    (h3 : 0 ≤ t.preschool) (hm : ∀ bm ∈ mults, 0 ≤ bm.2) :
    (∀ col ∈ (compute_monthly_cost_df t cfg mults).cols,
      ∀ v ∈ col.2, 0 ≤ v) ∧
    (∀ col ∈ (cumulative_cost (compute_monthly_cost_df t cfg mults)).cols,
      ∀ k : ℕ, k + 1 < col.2.length →
        col.2.getD k 0 ≤ col.2.getD (k + 1) 0) := by
  have hvals : ∀ col ∈ (compute_monthly_cost_df t cfg mults).cols,
      ∀ v ∈ col.2, 0 ≤ v := by
    intro col hcol v hv
    simp only [compute_monthly_cost_df] at hcol
    obtain ⟨bm, hbm, rfl⟩ := List.mem_map.mp hcol
    obtain ⟨cq, hcq, rfl⟩ := List.mem_map.mp hv
    obtain ⟨m, hmm, rfl⟩ := List.mem_map.mp hcq
    have hmc : 0 ≤ month_to_cost t m := by
      rw [month_to_cost]
      split
      · exact h1
      · split
        · exact h2
        · exact h3
    exact divTwelveTrunc_nonneg (mul_nonneg hmc (hm bm hbm))
  refine ⟨hvals, ?_⟩
  intro col hcol k hk
  simp only [cumulative_cost] at hcol
  obtain ⟨mc, hmc, rfl⟩ := List.mem_map.mp hcol
  have hlen : (cumsum mc.2).length = mc.2.length := cumsum_length mc.2
  have hk2 : k + 1 < mc.2.length := by
    rw [← hlen]
    exact hk
  have hk1 : k < mc.2.length := by omega
  have hstep : (cumsum mc.2).getD (k + 1) 0 =
      (cumsum mc.2).getD k 0 + mc.2.getD (k + 1) 0 := by
    rw [cumsum_getD mc.2 (k + 1) hk2, cumsum_getD mc.2 k hk1,
      List.sum_take_succ mc.2 (k + 1) hk2, List.getD_eq_getElem mc.2 0 hk2]
  have hx : 0 ≤ mc.2.getD (k + 1) 0 := by
    rw [List.getD_eq_getElem mc.2 0 hk2]
    exact hvals mc hmc _ (List.getElem_mem hk2)
  show (cumsum mc.2).getD k 0 ≤ (cumsum mc.2).getD (k + 1) 0
  omega

theorem projection_nonneg_monotone_witness :
    (0 : ℚ) ≤ 12000 ∧
    ((cumulative_cost (compute_monthly_cost_df ⟨12000, 9600, 8400⟩
        ⟨0, 60, 1⟩ [("Average", 1)])).cols.headD ("", [])).2.getD 0 0 ≤
      ((cumulative_cost (compute_monthly_cost_df ⟨12000, 9600, 8400⟩
        ⟨0, 60, 1⟩ [("Average", 1)])).cols.headD ("", [])).2.getD 1 0 :=
  ⟨by decide,
    (projection_nonneg_monotone ⟨12000, 9600, 8400⟩ ⟨0, 60, 1⟩
        [("Average", 1)] (by decide) (by decide) (by decide) (by decide)).2
      ((cumulative_cost (compute_monthly_cost_df ⟨12000, 9600, 8400⟩
        ⟨0, 60, 1⟩ [("Average", 1)])).cols.headD ("", []))
      (by decide) 0 (by decide)⟩
